import Mathlib

/-! vizkit: plugin dirty-flag protocol, typed update, adapter collection and host widget

A shallow embedding of `src/VizPlugin.hpp`, `src/QVizkitWidget.cpp` and
`src/QVizkitMainWindow.cpp`.

Conventions of the embedding:

* C++ pointers are natural numbers (`Ptr`); the null pointer is `none`.
* a C++ member function becomes a function from the object's state to its
  new state (and its return value);
* a `void` member function that may `throw` returns an `Outcome`: the state
  the object is left in, together with the exception, if one was thrown.
  The state is kept on the throwing path as well, since a C++ exception does
  not roll back the writes done before the `throw`;
* calls of the pure virtual hooks (`updateDataIntern`, `updateMainNode`) are
  recorded, in order, in the ghost field `calls`;
* `boost::mutex::scoped_lock` is acquired at the start of a member function
  and released on every exit path of it; the embedding is sequential, so the
  mutex is free again after every call and carries no state.
-/

set_option autoImplicit false

namespace vizkit

/-- A pointer value: the address of a heap object. -/
abbrev Ptr := Nat

/-- The name of a C++ type, as `typeid` would give it: the template argument
`Type` of `updateData<Type>` and of `VizPluginAddType<Type>`. -/
abbrev TypeTag := String

/-! ## `VizPluginRubyAdapterCollection` (VizPlugin.hpp, lines 39-93) -/

/-- The object store for ruby adapters: `getRubyMethod a` is what the virtual
slot `getRubyMethod()` returns on the adapter object that `a` points to. -/
abbrev RubyMethodOf := Ptr → String

/-- `class VizPluginRubyAdapterCollection`: the only data member is
`std::vector<VizPluginRubyAdapterBase*> adapterList`. -/
structure VizPluginRubyAdapterCollection where
  adapterList : List Ptr
  deriving DecidableEq, Repr

namespace VizPluginRubyAdapterCollection

/-- `void addAdapter(VizPluginRubyAdapterBase* adapter)`:
`adapterList.push_back(adapter)`. -/
def addAdapter (self : VizPluginRubyAdapterCollection) (adapter : Ptr) :
    VizPluginRubyAdapterCollection :=
  { adapterList := self.adapterList ++ [adapter] }

/-- `std::find(first, last, value)` on a vector of pointers: the position of
the first element equal to `value`, or the length of the range (`end()`) when
there is none. -/
def stdFind : List Ptr → Ptr → Nat
  | [], _ => 0
  | x :: xs, value => if x = value then 0 else stdFind xs value + 1

/-- `std::vector::erase(it)` for an iterator at position `pos`: the element at
that position is removed, the elements behind it move one place forward. -/
def vectorErase : List Ptr → Nat → List Ptr
  | [], _ => []
  | _ :: xs, 0 => xs
  | x :: xs, pos + 1 => x :: vectorErase xs pos

/-- `void removeAdapter(VizPluginRubyAdapterBase* adapter)`:
`it = std::find(begin, end, adapter); if (it != end) erase(it);`. -/
def removeAdapter (self : VizPluginRubyAdapterCollection) (adapter : Ptr) :
    VizPluginRubyAdapterCollection :=
  let it := stdFind self.adapterList adapter
  if it ≠ self.adapterList.length then
    { adapterList := vectorErase self.adapterList it }
  else self

/-- The `for` loop of `getAdapter` over the remaining range of the vector:
return the first pointer whose `getRubyMethod()` equals `rubyMethodName`,
`NULL` when the range is exhausted. -/
def getAdapterLoop (getRubyMethod : RubyMethodOf) : List Ptr → String → Option Ptr
  | [], _ => none
  | it :: rest, rubyMethodName =>
    if getRubyMethod it = rubyMethodName then some it
    else getAdapterLoop getRubyMethod rest rubyMethodName

/-- `QObject* getAdapter(QString rubyMethodName)`. -/
def getAdapter (getRubyMethod : RubyMethodOf) (self : VizPluginRubyAdapterCollection)
    (rubyMethodName : String) : Option Ptr :=
  getAdapterLoop getRubyMethod self.adapterList rubyMethodName

/-- The loop of `getListOfAvailableAdapter`: the method names of all adapters,
in the order of the vector. -/
def getListOfAvailableAdapter (getRubyMethod : RubyMethodOf)
    (self : VizPluginRubyAdapterCollection) : List String :=
  self.adapterList.map getRubyMethod

end VizPluginRubyAdapterCollection

/-! ## `VizPluginBase`, `VizPluginAddType`, `VizPlugin` (VizPlugin.hpp, lines 110-244) -/

/-- A call of one of the pure virtual hooks of a plugin, as recorded in the
ghost trace. `V` is the universe of data values. -/
inductive HookCall (V : Type) where
  | updateDataIntern (type : TypeTag) (data : V)
  | updateMainNode (node : Ptr)
  deriving DecidableEq, Repr

/-- The dynamic class of a plugin: which `VizPluginAddType<T>` bases it has and
how it overrides the pure virtual hooks. `σ` is the internal data the derived
class keeps, `V` the universe of data values.

`class VizPlugin<T> : public VizPluginBase, public VizPluginAddType<T>` has the
base `VizPluginAddType<primaryType>`; a derived class may add further bases
`VizPluginAddType<SecondType>` (`addTypes`). -/
structure PluginClass (σ V : Type) where
  primaryType : TypeTag
  addTypes : List TypeTag
  /-- The override of `virtual void updateDataIntern(const T &data) = 0` of the base
  `VizPluginAddType<T>`, as a transformer of the internal data. -/
  updateDataIntern : TypeTag → V → σ → σ
  /-- The override of `virtual void updateMainNode(osg::Node* node) = 0`. -/
  updateMainNode : Ptr → σ → σ

/-- The state of one plugin object: the private member `dirty` of
`VizPluginBase`, the node `vizNode`, the internal data of the derived class, and
the ghost trace of hook calls (oldest first). -/
structure VizPluginState (σ V : Type) where
  dirty : Bool
  vizNode : Ptr
  intern : σ
  calls : List (HookCall V)

/-- What a `void` member function that may throw leaves behind. -/
structure Outcome (S : Type) where
  state : S
  thrown : Option String

namespace VizPluginBase

variable {σ V : Type}

/-- Modelled from the spec: `VizPluginBase::isDirty()` is declared in
VizPlugin.hpp and defined in VizPlugin.cpp, which is not among the sources.
Spec 4.1: "returns current dirty state; no side effect". -/
def isDirty (self : VizPluginState σ V) : Bool :=
  self.dirty

/-- Modelled from the spec: `VizPluginBase::setDirty()` is declared in
VizPlugin.hpp ("mark the internal state as modified") and defined in
VizPlugin.cpp, which is not among the sources. Spec 4.1: "sets the dirty
flag". -/
def setDirty (self : VizPluginState σ V) : VizPluginState σ V :=
  { self with dirty := true }

/-- Modelled from the spec: `VizPluginBase::getVizNode()` is declared in
VizPlugin.hpp and defined in VizPlugin.cpp, which is not among the sources.
Spec 4.1: "returns the render subtree owned by the plugin ... subsequent calls
return the same instance". -/
def getVizNode (self : VizPluginState σ V) : Ptr :=
  self.vizNode

/-- The call `this->updateMainNode(node)` of the virtual hook: the override of
the dynamic class runs and the call is recorded. -/
def callUpdateMainNode (cls : PluginClass σ V) (node : Ptr) (self : VizPluginState σ V) :
    VizPluginState σ V :=
  { self with
    intern := cls.updateMainNode node self.intern
    calls := self.calls ++ [HookCall.updateMainNode node] }

/-- Modelled from the spec: `VizPluginBase::updateCallback(osg::Node*)` is
declared in VizPlugin.hpp and defined in VizPlugin.cpp, which is not among the
sources. Spec 4.3: "the callback checks the flag and does nothing if clean";
"when dirty, the callback acquires the plugin's update lock, calls
`updateMainNode` on the plugin's own subtree root, then clears the dirty flag,
then releases the lock". -/
def updateCallback (cls : PluginClass σ V) (self : VizPluginState σ V) :
    VizPluginState σ V :=
  if isDirty self then
    let self := callUpdateMainNode cls (getVizNode self) self
    { self with dirty := false }
  else self

end VizPluginBase

namespace VizPlugin

variable {σ V : Type}

/-- The bases `VizPluginAddType<T>` of the dynamic class of a plugin. -/
def addTypeBases (cls : PluginClass σ V) : List TypeTag :=
  cls.primaryType :: cls.addTypes

/-- `dynamic_cast<VizPluginAddType<Type>*>(this)`: non-null exactly when the
dynamic class has the base `VizPluginAddType<Type>`; the result stands for the
sub-object, through which `updateDataIntern(const Type&)` is called. -/
def dynamicCastAddType (cls : PluginClass σ V) (type : TypeTag) : Option TypeTag :=
  if type ∈ addTypeBases cls then some type else none

/-- The call `type->updateDataIntern(data)` of the virtual hook: the override of
the dynamic class runs and the call is recorded. -/
def callUpdateDataIntern (cls : PluginClass σ V) (type : TypeTag) (data : V)
    (self : VizPluginState σ V) : VizPluginState σ V :=
  { self with
    intern := cls.updateDataIntern type data self.intern
    calls := self.calls ++ [HookCall.updateDataIntern type data] }

/-- The message of the `std::runtime_error` thrown by `updateData`. -/
def wrongTypeError : String := "Wrong type given to visualizer"

/-- `template<typename Type> void updateData(const Type &data)`
(VizPlugin.hpp, lines 232-243):
```
boost::mutex::scoped_lock lockit(this->updateMutex);
this->setDirty();
VizPluginAddType<Type> *type = dynamic_cast<VizPluginAddType<Type>*>(this);
if(type) type->updateDataIntern(data);
else throw std::runtime_error("Wrong type given to visualizer");
``` -/
def updateData (cls : PluginClass σ V) (type : TypeTag) (data : V)
    (self : VizPluginState σ V) : Outcome (VizPluginState σ V) :=
  let self := VizPluginBase.setDirty self
  match dynamicCastAddType cls type with
  | some t => { state := callUpdateDataIntern cls t data self, thrown := none }
  | none => { state := self, thrown := some wrongTypeError }

/-- What application code may call on a plugin between two runs of the
synchronization callback. -/
inductive ClientCall (V : Type) where
  | setDirty
  | isDirty
  | getVizNode
  | updateData (type : TypeTag) (data : V)

/-- The state of the plugin after one client call (the state is the one left
behind also when `updateData` throws). -/
def afterCall (cls : PluginClass σ V) (self : VizPluginState σ V) :
    ClientCall V → VizPluginState σ V
  | ClientCall.setDirty => VizPluginBase.setDirty self
  | ClientCall.isDirty => self
  | ClientCall.getVizNode => self
  | ClientCall.updateData type data => (updateData cls type data self).state

/-- The state of the plugin after a sequence of client calls. -/
def afterCalls (cls : PluginClass σ V) (self : VizPluginState σ V)
    (cs : List (ClientCall V)) : VizPluginState σ V :=
  cs.foldl (afterCall cls) self

end VizPlugin

/-! ## The scene graph and the objects handed to the host -/

namespace osg

/-- `osg::Group::addChild(Node* child)` on the child list of a group:
`insertChild(_children.size(), child)`, that is, the child is appended; a
child that is already in the list is appended again (`ENSURE_CHILD_IS_UNIQUE`
is not defined). -/
def addChild (children : List Ptr) (child : Ptr) : List Ptr :=
  children ++ [child]

/-- `osg::Group::getChildIndex(const Node* node)`: the index of the first
child equal to `node`, the number of children when there is none. -/
def getChildIndex : List Ptr → Ptr → Nat
  | [], _ => 0
  | c :: cs, node => if c = node then 0 else getChildIndex cs node + 1

/-- `osg::Group::removeChildren(pos, 1)`: the child at position `pos` is
erased from the list. -/
def removeChildAt : List Ptr → Nat → List Ptr
  | [], _ => []
  | _ :: cs, 0 => cs
  | c :: cs, pos + 1 => c :: removeChildAt cs pos

/-- `osg::Group::removeChild(Node* child)`:
`pos = getChildIndex(child); if (pos < _children.size()) removeChildren(pos, 1);`. -/
def removeChild (children : List Ptr) (child : Ptr) : List Ptr :=
  let pos := getChildIndex children child
  if pos < children.length then removeChildAt children pos else children

end osg

/-- A `VizPluginBase` object as the host sees it: the node `getVizNode()`
returns and the vector `getDockWidgets()` returns. -/
structure PluginHandle where
  vizNode : Ptr
  dockWidgets : List Ptr
  deriving DecidableEq, Repr

/-- A `QObject*` argument of `addPlugin` / `removePlugin`, described by what
the two `dynamic_cast`s of the host find in its dynamic type:
* `asVizPluginWidgetBase`: `dynamic_cast<VizPluginWidgetBase*>(plugin)`; when
  it is non-null, the plugin that `pluginWidget->getPlugin()` returns;
* `asVizPluginBase`: `dynamic_cast<VizPluginBase*>(plugin)`. -/
structure QObject where
  asVizPluginWidgetBase : Option PluginHandle
  asVizPluginBase : Option PluginHandle
  deriving DecidableEq, Repr

/-- The plugin classes that `QVizkitWidget::createPlugin` instantiates. -/
inductive PluginKind where
  | WaypointVisualization
  | MotionCommandVisualization
  | TrajectoryVisualization
  deriving DecidableEq, Repr

/-- A plugin object made by `new`: its own address, its class, the node that
`getVizNode()` returns and the address of its member `adapterCollection`, which
`getRubyAdapterCollection()` returns. -/
structure PluginObject where
  addr : Ptr
  kind : PluginKind
  vizNode : Ptr
  adapterCollection : Ptr
  deriving DecidableEq, Repr

/-- The expression `new vizkit::K()` for a plugin class `K`, with the allocator
handing out the addresses from `heapTop` on: the plugin object, its node and
its adapter collection get fresh, pairwise distinct addresses. Returns the
object and the new top of the heap. -/
def newPlugin (heapTop : Ptr) (kind : PluginKind) : PluginObject × Ptr :=
  ({ addr := heapTop, kind := kind, vizNode := heapTop + 1,
     adapterCollection := heapTop + 2 }, heapTop + 3)

/-! ## `QVizkitWidget` (QVizkitWidget.cpp) -/

/-- The state of a `QVizkitWidget` together with the program state its member
functions touch:
* `rootChildren`: the child list of the group `root`;
* `pluginNames`: the address held by the member `QStringList* pluginNames`,
  `pluginNamesItems`: the contents of the list at that address;
* `cerr`: the lines written to `std::cerr` so far;
* `heapTop`: the next address the allocator hands out. -/
structure QVizkitWidget where
  root : Ptr
  rootChildren : List Ptr
  pluginNames : Ptr
  pluginNamesItems : List String
  cerr : List String
  heapTop : Ptr
  deriving DecidableEq, Repr

namespace QVizkitWidget

/-- The constructor `QVizkitWidget::QVizkitWidget` (lines 10-34), as far as it
concerns the state above: `createSceneGraph()` makes the root group and adds the
two light sources to it, then the grid node is added, and
`pluginNames = new QStringList()` is an empty list. -/
def construct (heapTop : Ptr) (cerr : List String) : QVizkitWidget :=
  let root := heapTop
  let ls0 := heapTop + 1
  let ls1 := heapTop + 2
  let children := osg.addChild (osg.addChild [] ls0) ls1
  let gn := heapTop + 3
  let children := osg.addChild children gn
  { root := root, rootChildren := children, pluginNames := heapTop + 4,
    pluginNamesItems := [], cerr := cerr, heapTop := heapTop + 5 }

/-- `void addDataHandler(VizPluginBase *viz)`:
`root->addChild( viz->getVizNode() )`. -/
def addDataHandler (self : QVizkitWidget) (vizNode : Ptr) : QVizkitWidget :=
  { self with rootChildren := osg.addChild self.rootChildren vizNode }

/-- `void removeDataHandler(VizPluginBase *viz)`:
`root->removeChild( viz->getVizNode() )`. -/
def removeDataHandler (self : QVizkitWidget) (vizNode : Ptr) : QVizkitWidget :=
  { self with rootChildren := osg.removeChild self.rootChildren vizNode }

/-- The if-chain at the head of `createPlugin` (lines 153-165): which class is
instantiated for a name; `none` when `plugin` stays `0`. -/
def pluginKindOfName (pluginName : String) : Option PluginKind :=
  if pluginName = "WaypointVisualization" then
    some PluginKind.WaypointVisualization
  else if pluginName = "MotionCommandVisualization" then
    some PluginKind.MotionCommandVisualization
  else if pluginName = "TrajectoryVisualization" then
    some PluginKind.TrajectoryVisualization
  else none

/-- The line `createPlugin` writes to `std::cerr` for an unknown name. -/
def unknownNameMessage (pluginName : String) : String :=
  "The Pluginname " ++ pluginName ++ " is unknown!"

/-- What a call of `createPlugin` leaves behind: the widget, the returned
`QObject*` (`none` is `NULL`) and the plugin object that was made, if any. -/
structure CreateResult where
  widget : QVizkitWidget
  ret : Option Ptr
  plugin : Option PluginObject
  deriving DecidableEq, Repr

/-- `QObject* createPlugin(QString pluginName)` (lines 151-177). -/
def createPlugin (self : QVizkitWidget) (pluginName : String) : CreateResult :=
  match pluginKindOfName pluginName with
  | some kind =>
    let (plugin, top) := newPlugin self.heapTop kind
    let self := addDataHandler { self with heapTop := top } plugin.vizNode
    { widget := self, ret := some plugin.adapterCollection, plugin := some plugin }
  | none =>
    { widget := { self with cerr := self.cerr ++ [unknownNameMessage pluginName] },
      ret := none, plugin := none }

/-- `QStringList* getListOfAvailablePlugins()` (lines 183-192): the three names
are pushed when the list is empty; the member pointer is returned. Returns the
widget and the returned pointer. -/
def getListOfAvailablePlugins (self : QVizkitWidget) : QVizkitWidget × Ptr :=
  let self :=
    if self.pluginNamesItems.length = 0 then
      { self with pluginNamesItems :=
          ((self.pluginNamesItems ++ ["WaypointVisualization"])
            ++ ["TrajectoryVisualization"]) ++ ["MotionCommandVisualization"] }
    else self
  (self, self.pluginNames)

/-- The widget after `n` consecutive calls of `getListOfAvailablePlugins`. -/
def afterListCalls (self : QVizkitWidget) : Nat → QVizkitWidget
  | 0 => self
  | n + 1 => (getListOfAvailablePlugins (afterListCalls self n)).1

/-- The line `addPlugin` / `removePlugin` write to `std::cerr` when the cast
fails. -/
def noVizPluginMessage : String := "The given attribute is no VizPlugin!"

/-- `void addPlugin(QObject* plugin)` (lines 194-201). -/
def addPlugin (self : QVizkitWidget) (plugin : QObject) : QVizkitWidget :=
  match plugin.asVizPluginWidgetBase with
  | some viz => addDataHandler self viz.vizNode
  | none => { self with cerr := self.cerr ++ [noVizPluginMessage] }

/-- `void removePlugin(QObject* plugin)` (lines 203-210). -/
def removePlugin (self : QVizkitWidget) (plugin : QObject) : QVizkitWidget :=
  match plugin.asVizPluginWidgetBase with
  | some viz => removeDataHandler self viz.vizNode
  | none => { self with cerr := self.cerr ++ [noVizPluginMessage] }

end QVizkitWidget

/-! ## `QVizkitMainWindow` (QVizkitMainWindow.cpp) -/

/-- The state of a `QVizkitMainWindow`: the central 3D widget `vizKitWidget` and
the dock widgets the window currently holds. The constructor makes the widget as
`new vizkit::Vizkit3DWidget(parent, flags)`; its `addPlugin` and `removePlugin`
are those of the 3D widget of QVizkitWidget.cpp. -/
structure QVizkitMainWindow where
  vizKitWidget : QVizkitWidget
  docked : List Ptr
  deriving DecidableEq, Repr

namespace QVizkitMainWindow

/-- `QMainWindow::addDockWidget(area, dockwidget)` on the dock widgets of the
window: the widget is docked; one that is docked already stays docked once. -/
def addDockWidget (docked : List Ptr) (dock : Ptr) : List Ptr :=
  if dock ∈ docked then docked else docked ++ [dock]

/-- `QMainWindow::removeDockWidget(dockwidget)` on the dock widgets of the
window: the widget is no longer docked. -/
def removeDockWidget (docked : List Ptr) (dock : Ptr) : List Ptr :=
  docked.filter (fun d => d ≠ dock)

/-- `void addPlugin(QObject* plugin)` (lines 19-31). -/
def addPlugin (self : QVizkitMainWindow) (plugin : QObject) : QVizkitMainWindow :=
  let self := { self with vizKitWidget := QVizkitWidget.addPlugin self.vizKitWidget plugin }
  match plugin.asVizPluginBase with
  | some viz_plugin =>
    { self with docked := viz_plugin.dockWidgets.foldl addDockWidget self.docked }
  | none => self

/-- `void removePlugin(QObject* plugin)` (lines 38-50). -/
def removePlugin (self : QVizkitMainWindow) (plugin : QObject) : QVizkitMainWindow :=
  let self := { self with vizKitWidget := QVizkitWidget.removePlugin self.vizKitWidget plugin }
  match plugin.asVizPluginBase with
  | some viz_plugin =>
    { self with docked := viz_plugin.dockWidgets.foldl removeDockWidget self.docked }
  | none => self

end QVizkitMainWindow

/-! ## Concrete objects used to evaluate the definitions -/

namespace Example

/-- A plugin class in the manner of `WaypointVisualization`: a
`VizPlugin<base::Waypoint>` with the further base
`VizPluginAddType<base::Pose>`; the internal data is the list of the values
received, `updateMainNode` leaves it alone. Values are numbers. -/
def waypointClass : PluginClass (List Nat) Nat where
  primaryType := "base::Waypoint"
  addTypes := ["base::Pose"]
  updateDataIntern := fun _ data intern => intern ++ [data]
  updateMainNode := fun _ intern => intern

/-- A plugin class like `waypointClass` whose `updateMainNode` can be observed:
it appends the node it was called on to the internal data. -/
def markingClass : PluginClass (List Nat) Nat where
  primaryType := "base::Waypoint"
  addTypes := ["base::Pose"]
  updateDataIntern := fun _ data intern => intern ++ [data]
  updateMainNode := fun node intern => intern ++ [node]

/-- A clean plugin object with node `7` that has received nothing yet. -/
def cleanPlugin : VizPluginState (List Nat) Nat :=
  { dirty := false, vizNode := 7, intern := [], calls := [] }

/-- A freshly constructed widget, the allocator at address `100`, nothing
written to `std::cerr` yet. -/
def freshWidget : QVizkitWidget :=
  QVizkitWidget.construct 100 []

/-- An object that is a `VizPluginWidgetBase` wrapping a plugin with node `20`
and no dock widgets. -/
def widgetPlugin : QObject :=
  { asVizPluginWidgetBase := some { vizNode := 20, dockWidgets := [] },
    asVizPluginBase := none }

/-- An object store for ruby adapters: the adapters at `1` and `3` answer
`updateWaypoint`, every other one `updatePose`. -/
def rubyMethods : RubyMethodOf :=
  fun a => if a = 1 ∨ a = 3 then "updateWaypoint" else "updatePose"

/-- The collection after `addAdapter(2); addAdapter(3); addAdapter(1)`. -/
def threeAdapters : VizPluginRubyAdapterCollection :=
  (((VizPluginRubyAdapterCollection.mk []).addAdapter 2).addAdapter 3).addAdapter 1

/-- The collection after `addAdapter(1); addAdapter(2); addAdapter(1)`: the
adapter at `1` has been added twice. -/
def addedTwice : VizPluginRubyAdapterCollection :=
  (((VizPluginRubyAdapterCollection.mk []).addAdapter 1).addAdapter 2).addAdapter 1

end Example

/-! ## Theorems -/

section PluginLemmas

variable {σ V : Type}

theorem setDirty_dirty (self : VizPluginState σ V) :
    (VizPluginBase.setDirty self).dirty = true := rfl

theorem afterCall_keeps_dirty (cls : PluginClass σ V) (self : VizPluginState σ V)
    (c : VizPlugin.ClientCall V) (h : self.dirty = true) :
    (VizPlugin.afterCall cls self c).dirty = true := by
  cases c with
  | setDirty => rfl
  | isDirty => exact h
  | getVizNode => exact h
  | updateData type data =>
    simp only [VizPlugin.afterCall, VizPlugin.updateData]
    cases VizPlugin.dynamicCastAddType cls type <;> rfl

theorem afterCalls_keeps_dirty (cls : PluginClass σ V) (cs : List (VizPlugin.ClientCall V)) :
    ∀ self : VizPluginState σ V, self.dirty = true →
      (VizPlugin.afterCalls cls self cs).dirty = true := by
  induction cs with
  | nil => intro self h; exact h
  | cons c cs ih =>
    intro self h
    exact ih (VizPlugin.afterCall cls self c) (afterCall_keeps_dirty cls self c h)

end PluginLemmas

/-- C1, as stated, fails: on the clean plugin `cleanPlugin` of class
`waypointClass`, `updateData<int>(5)` (a type the class does not declare)
throws the type-mismatch error, but the dirty flag, false before the call, is
true after it. -/
theorem updateData_unsupported_changes_dirty :
    "int" ∉ VizPlugin.addTypeBases Example.waypointClass ∧
    (VizPlugin.updateData Example.waypointClass "int" 5 Example.cleanPlugin).thrown
      = some VizPlugin.wrongTypeError ∧
    Example.cleanPlugin.dirty = false ∧
    (VizPlugin.updateData Example.waypointClass "int" 5 Example.cleanPlugin).state.dirty
      = true ∧
    (VizPlugin.updateData Example.waypointClass "int" 5 Example.cleanPlugin).state.dirty
      ≠ Example.cleanPlugin.dirty := by
  decide

/-- C1, amended: for every plugin, every prior state and every value of a type
the plugin does not declare, `updateData` throws the type-mismatch error, calls
no hook and leaves the internal data and the node as they were; the dirty flag
is true after the call, so the whole state is unchanged when the plugin was
dirty before. -/
theorem updateData_unsupported_throws {σ V : Type} (cls : PluginClass σ V)
    (self : VizPluginState σ V) (type : TypeTag) (data : V)
    (h : type ∉ VizPlugin.addTypeBases cls) :
    (VizPlugin.updateData cls type data self).thrown = some VizPlugin.wrongTypeError ∧
    (VizPlugin.updateData cls type data self).state.intern = self.intern ∧
    (VizPlugin.updateData cls type data self).state.calls = self.calls ∧
    (VizPlugin.updateData cls type data self).state.vizNode = self.vizNode ∧
    (VizPlugin.updateData cls type data self).state.dirty = true ∧
    (self.dirty = true → (VizPlugin.updateData cls type data self).state = self) := by
  have hc : VizPlugin.dynamicCastAddType cls type = none := by
    simp [VizPlugin.dynamicCastAddType, h]
  have e : VizPlugin.updateData cls type data self
      = { state := VizPluginBase.setDirty self, thrown := some VizPlugin.wrongTypeError } := by
    simp only [VizPlugin.updateData, hc]
  rw [e]
  refine ⟨rfl, rfl, rfl, rfl, rfl, ?_⟩
  intro hd
  cases self with
  | mk dirty vizNode intern calls =>
    simp only [VizPluginBase.setDirty]
    simp only at hd
    rw [hd]

/-- Witness of `updateData_unsupported_throws`: a dirty `waypointClass` plugin
and `updateData<int>(5)`. -/
theorem updateData_unsupported_throws_witness :
    (VizPlugin.updateData Example.waypointClass "int" 5
        (VizPluginBase.setDirty Example.cleanPlugin)).thrown
      = some VizPlugin.wrongTypeError ∧
    (VizPlugin.updateData Example.waypointClass "int" 5
        (VizPluginBase.setDirty Example.cleanPlugin)).state.intern = [] ∧
    (VizPlugin.updateData Example.waypointClass "int" 5
        (VizPluginBase.setDirty Example.cleanPlugin)).state.dirty = true :=
  have h := updateData_unsupported_throws Example.waypointClass
    (VizPluginBase.setDirty Example.cleanPlugin) "int" 5 (by decide)
  ⟨h.1, h.2.1, h.2.2.2.2.1⟩

/-- C2: for every plugin, every prior state and every value of a type the
plugin declares (a base `VizPluginAddType<Type>` of its class), `updateData`
throws nothing, leaves the dirty flag true and calls `updateDataIntern` exactly
once, with that value: the trace of hook calls grows by that one call and the
internal data is what the override makes of the old data and the value. -/
theorem updateData_supported_updates {σ V : Type} (cls : PluginClass σ V)
    (self : VizPluginState σ V) (type : TypeTag) (data : V)
    (h : type ∈ VizPlugin.addTypeBases cls) :
    (VizPlugin.updateData cls type data self).thrown = none ∧
    VizPluginBase.isDirty (VizPlugin.updateData cls type data self).state = true ∧
    (VizPlugin.updateData cls type data self).state.calls
      = self.calls ++ [HookCall.updateDataIntern type data] ∧
    (VizPlugin.updateData cls type data self).state.intern
      = cls.updateDataIntern type data self.intern ∧
    (VizPlugin.updateData cls type data self).state.vizNode = self.vizNode := by
  have hc : VizPlugin.dynamicCastAddType cls type = some type := by
    simp [VizPlugin.dynamicCastAddType, h]
  have e : VizPlugin.updateData cls type data self
      = { state := VizPlugin.callUpdateDataIntern cls type data (VizPluginBase.setDirty self),
          thrown := none } := by
    simp only [VizPlugin.updateData, hc]
  rw [e]
  exact ⟨rfl, rfl, rfl, rfl, rfl⟩

/-- Witness of `updateData_supported_updates`: the clean `waypointClass` plugin
and `updateData<base::Pose>(5)`. -/
theorem updateData_supported_updates_witness :
    (VizPlugin.updateData Example.waypointClass "base::Pose" 5 Example.cleanPlugin).thrown
      = none ∧
    VizPluginBase.isDirty
      (VizPlugin.updateData Example.waypointClass "base::Pose" 5 Example.cleanPlugin).state
      = true ∧
    (VizPlugin.updateData Example.waypointClass "base::Pose" 5 Example.cleanPlugin).state.calls
      = [HookCall.updateDataIntern "base::Pose" 5] ∧
    (VizPlugin.updateData Example.waypointClass "base::Pose" 5 Example.cleanPlugin).state.intern
      = [5] :=
  have h := updateData_supported_updates Example.waypointClass Example.cleanPlugin
    "base::Pose" 5 (by decide)
  ⟨h.1, h.2.1, h.2.2.1, h.2.2.2.1⟩

/-- C3: for every plugin, after `setDirty()` the plugin is dirty and stays dirty
through every sequence of client calls (`setDirty`, `isDirty`, `getVizNode`,
`updateData`, failing or not); the synchronization callback, run on the plugin in
that state, calls `updateMainNode` once, on the plugin's node, so that the
internal data is what the override of `updateMainNode` makes of it for that
node, keeps the node, and leaves the plugin clean; run on a clean plugin, the
callback calls no hook and changes nothing. -/
theorem dirty_until_updateCallback {σ V : Type} (cls : PluginClass σ V)
    (self : VizPluginState σ V) (cs : List (VizPlugin.ClientCall V)) :
    VizPluginBase.isDirty (VizPluginBase.setDirty self) = true ∧
    VizPluginBase.isDirty (VizPlugin.afterCalls cls (VizPluginBase.setDirty self) cs) = true ∧
    (VizPluginBase.updateCallback cls
        (VizPlugin.afterCalls cls (VizPluginBase.setDirty self) cs)).calls
      = (VizPlugin.afterCalls cls (VizPluginBase.setDirty self) cs).calls
        ++ [HookCall.updateMainNode
              (VizPluginBase.getVizNode
                (VizPlugin.afterCalls cls (VizPluginBase.setDirty self) cs))] ∧
    VizPluginBase.isDirty
      (VizPluginBase.updateCallback cls
        (VizPlugin.afterCalls cls (VizPluginBase.setDirty self) cs)) = false ∧
    (VizPluginBase.isDirty self = false → VizPluginBase.updateCallback cls self = self) ∧
    (VizPluginBase.updateCallback cls
        (VizPlugin.afterCalls cls (VizPluginBase.setDirty self) cs)).intern
      = cls.updateMainNode
          (VizPluginBase.getVizNode (VizPlugin.afterCalls cls (VizPluginBase.setDirty self) cs))
          (VizPlugin.afterCalls cls (VizPluginBase.setDirty self) cs).intern ∧
    VizPluginBase.getVizNode
        (VizPluginBase.updateCallback cls
          (VizPlugin.afterCalls cls (VizPluginBase.setDirty self) cs))
      = VizPluginBase.getVizNode
          (VizPlugin.afterCalls cls (VizPluginBase.setDirty self) cs) := by
  have hd := afterCalls_keeps_dirty cls cs (VizPluginBase.setDirty self) rfl
  refine ⟨rfl, hd, ?_, ?_, ?_, ?_, ?_⟩
  · simp [VizPluginBase.updateCallback, VizPluginBase.isDirty, hd,
      VizPluginBase.callUpdateMainNode]
  · simp [VizPluginBase.updateCallback, VizPluginBase.isDirty, hd]
  · intro hc
    simp [VizPluginBase.updateCallback, hc]
  · simp [VizPluginBase.updateCallback, VizPluginBase.isDirty, hd,
      VizPluginBase.callUpdateMainNode]
  · simp [VizPluginBase.updateCallback, VizPluginBase.isDirty, hd,
      VizPluginBase.callUpdateMainNode, VizPluginBase.getVizNode]

/-- Witness of `dirty_until_updateCallback`: the clean `waypointClass` plugin,
with an accepted and a rejected `updateData` between `setDirty()` and the
callback; and the same calls on a `markingClass` plugin, whose `updateMainNode`
leaves the node `7` it was called on in the internal data. -/
theorem dirty_until_updateCallback_witness :
    VizPluginBase.isDirty Example.cleanPlugin = false ∧
    VizPluginBase.updateCallback Example.waypointClass Example.cleanPlugin
      = Example.cleanPlugin ∧
    (VizPluginBase.updateCallback Example.waypointClass
        (VizPlugin.afterCalls Example.waypointClass
          (VizPluginBase.setDirty Example.cleanPlugin)
          [VizPlugin.ClientCall.updateData "base::Waypoint" 3,
           VizPlugin.ClientCall.updateData "int" 4])).calls
      = [HookCall.updateDataIntern "base::Waypoint" 3, HookCall.updateMainNode 7] ∧
    (VizPluginBase.updateCallback Example.markingClass
        (VizPlugin.afterCalls Example.markingClass
          (VizPluginBase.setDirty Example.cleanPlugin)
          [VizPlugin.ClientCall.updateData "base::Waypoint" 3,
           VizPlugin.ClientCall.updateData "int" 4])).intern
      = [3, 7] :=
  have h := dirty_until_updateCallback Example.waypointClass Example.cleanPlugin
    [VizPlugin.ClientCall.updateData "base::Waypoint" 3,
     VizPlugin.ClientCall.updateData "int" 4]
  have g := dirty_until_updateCallback Example.markingClass Example.cleanPlugin
    [VizPlugin.ClientCall.updateData "base::Waypoint" 3,
     VizPlugin.ClientCall.updateData "int" 4]
  ⟨rfl, h.2.2.2.2.1 rfl, h.2.2.1.trans (by decide), g.2.2.2.2.2.1.trans (by decide)⟩

section WidgetLemmas

theorem removeChild_eq_erase (children : List Ptr) (child : Ptr) :
    osg.removeChild children child = children.erase child := by
  induction children with
  | nil => rfl
  | cons c cs ih =>
    by_cases h : c = child
    · subst h
      simp [osg.removeChild, osg.getChildIndex, osg.removeChildAt]
    · have hne : (c == child) = false := by simpa using h
      simp only [osg.removeChild, osg.getChildIndex, h, if_false, List.length_cons,
        Nat.add_lt_add_iff_right, osg.removeChildAt, List.erase_cons, hne] at ih ⊢
      by_cases hlt : osg.getChildIndex cs child < cs.length
      · simp only [hlt, if_true] at ih ⊢
        rw [ih]; simp
      · simp only [hlt, if_false] at ih ⊢
        rw [← ih]; simp

theorem removeChild_addChild_perm (children : List Ptr) (child : Ptr) :
    (osg.removeChild (osg.addChild children child) child).Perm children := by
  rw [removeChild_eq_erase, osg.addChild]
  by_cases h : child ∈ children
  · rw [List.erase_append_left _ h]
    exact (List.perm_append_singleton child _).trans (List.perm_cons_erase h).symm
  · rw [List.erase_append_right _ h]
    simp

theorem removeChild_addChild_of_not_mem (children : List Ptr) (child : Ptr)
    (h : child ∉ children) :
    osg.removeChild (osg.addChild children child) child = children := by
  rw [removeChild_eq_erase, osg.addChild, List.erase_append_right _ h]
  simp

theorem pluginKindOfName_eq_none_iff (pluginName : String) :
    QVizkitWidget.pluginKindOfName pluginName = none ↔
      pluginName ∉ ["WaypointVisualization", "MotionCommandVisualization",
        "TrajectoryVisualization"] := by
  unfold QVizkitWidget.pluginKindOfName
  by_cases h1 : pluginName = "WaypointVisualization"
  · simp [h1]
  · by_cases h2 : pluginName = "MotionCommandVisualization"
    · simp [h2]
    · by_cases h3 : pluginName = "TrajectoryVisualization"
      · simp [h3]
      · simp [h1, h2, h3]

theorem createPlugin_ret_eq_none_iff (self : QVizkitWidget) (pluginName : String) :
    (QVizkitWidget.createPlugin self pluginName).ret = none ↔
      QVizkitWidget.pluginKindOfName pluginName = none := by
  unfold QVizkitWidget.createPlugin
  cases QVizkitWidget.pluginKindOfName pluginName <;> simp [newPlugin]

theorem createPlugin_cerr (self : QVizkitWidget) (pluginName : String) :
    (QVizkitWidget.createPlugin self pluginName).widget.cerr =
      match QVizkitWidget.pluginKindOfName pluginName with
      | some _ => self.cerr
      | none => self.cerr ++ [QVizkitWidget.unknownNameMessage pluginName] := by
  unfold QVizkitWidget.createPlugin
  cases QVizkitWidget.pluginKindOfName pluginName <;>
    simp [newPlugin, QVizkitWidget.addDataHandler]

end WidgetLemmas

/-- C4: for every widget and every name, `createPlugin(name)` returns null
exactly when the name is none of the three built-in plugin names, and it writes
the unknown-name line to `std::cerr` exactly in that case (otherwise it writes
nothing); `createPlugin("WaypointVisualization")` returns the adapter collection
of a `WaypointVisualization` object at a fresh address, and
`createPlugin("NoSuchThing")` returns null and writes the diagnostic. -/
theorem createPlugin_null_iff_unknown (self : QVizkitWidget) (pluginName : String) :
    ((QVizkitWidget.createPlugin self pluginName).ret = none ↔
      pluginName ∉ ["WaypointVisualization", "MotionCommandVisualization",
        "TrajectoryVisualization"]) ∧
    ((QVizkitWidget.createPlugin self pluginName).widget.cerr
        = self.cerr ++ [QVizkitWidget.unknownNameMessage pluginName] ↔
      pluginName ∉ ["WaypointVisualization", "MotionCommandVisualization",
        "TrajectoryVisualization"]) ∧
    ((QVizkitWidget.createPlugin self pluginName).widget.cerr = self.cerr ↔
      pluginName ∈ ["WaypointVisualization", "MotionCommandVisualization",
        "TrajectoryVisualization"]) ∧
    (QVizkitWidget.createPlugin self "WaypointVisualization").plugin
      = some { addr := self.heapTop, kind := PluginKind.WaypointVisualization,
               vizNode := self.heapTop + 1, adapterCollection := self.heapTop + 2 } ∧
    (QVizkitWidget.createPlugin self "WaypointVisualization").ret
      = some (self.heapTop + 2) ∧
    (QVizkitWidget.createPlugin self "WaypointVisualization").widget.heapTop
      = self.heapTop + 3 ∧
    (QVizkitWidget.createPlugin self "NoSuchThing").ret = none ∧
    (QVizkitWidget.createPlugin self "NoSuchThing").widget.cerr
      = self.cerr ++ ["The Pluginname NoSuchThing is unknown!"] := by
  have hk := pluginKindOfName_eq_none_iff pluginName
  have hc := createPlugin_cerr self pluginName
  refine ⟨(createPlugin_ret_eq_none_iff self pluginName).trans hk, ?_, ?_, ?_, ?_, ?_, ?_, ?_⟩
  · rw [hc, ← hk]
    cases QVizkitWidget.pluginKindOfName pluginName <;> simp
  · rw [hc, ← not_iff_not, ← hk]
    cases QVizkitWidget.pluginKindOfName pluginName <;> simp
  · rfl
  · rfl
  · rfl
  · rfl
  · rfl

/-- C5: for every widget (every child list of the root) and every object the
widget accepts (a `VizPluginWidgetBase`), `addPlugin` followed by `removePlugin`
leaves the children of the root the same as a set, indeed with the same
multiplicities; the child list itself is the same when the plugin's node was
not a child before, and nothing else of the widget changes. -/
theorem addPlugin_removePlugin_children (self : QVizkitWidget) (plugin : QObject)
    (viz : PluginHandle) (h : plugin.asVizPluginWidgetBase = some viz) :
    (∀ node : Ptr,
      node ∈ (QVizkitWidget.removePlugin (QVizkitWidget.addPlugin self plugin)
                plugin).rootChildren ↔ node ∈ self.rootChildren) ∧
    ((QVizkitWidget.removePlugin (QVizkitWidget.addPlugin self plugin)
        plugin).rootChildren).Perm self.rootChildren ∧
    (viz.vizNode ∉ self.rootChildren →
      QVizkitWidget.removePlugin (QVizkitWidget.addPlugin self plugin) plugin = self) ∧
    (QVizkitWidget.removePlugin (QVizkitWidget.addPlugin self plugin) plugin).cerr
      = self.cerr := by
  have e : QVizkitWidget.removePlugin (QVizkitWidget.addPlugin self plugin) plugin
      = { self with rootChildren :=
            osg.removeChild (osg.addChild self.rootChildren viz.vizNode) viz.vizNode } := by
    simp only [QVizkitWidget.removePlugin, QVizkitWidget.addPlugin, h,
      QVizkitWidget.addDataHandler, QVizkitWidget.removeDataHandler]
  rw [e]
  have hp := removeChild_addChild_perm self.rootChildren viz.vizNode
  refine ⟨fun node => hp.mem_iff, hp, ?_, rfl⟩
  intro hn
  rw [removeChild_addChild_of_not_mem _ _ hn]

/-- Witness of `addPlugin_removePlugin_children`: the fresh widget and a
`VizPluginWidgetBase` object with node `20`. -/
theorem addPlugin_removePlugin_children_witness :
    Example.widgetPlugin.asVizPluginWidgetBase = some { vizNode := 20, dockWidgets := [] } ∧
    (∀ node : Ptr,
      node ∈ (QVizkitWidget.removePlugin
                (QVizkitWidget.addPlugin Example.freshWidget Example.widgetPlugin)
                Example.widgetPlugin).rootChildren ↔ node ∈ Example.freshWidget.rootChildren) :=
  ⟨rfl, (addPlugin_removePlugin_children Example.freshWidget Example.widgetPlugin
    { vizNode := 20, dockWidgets := [] } rfl).1⟩

/-- C7: on a freshly constructed widget, `getListOfAvailablePlugins()` returns
the member list `pluginNames`, and the contents of that list are exactly the
names `createPlugin` knows: a name occurs in the list if and only if
`createPlugin(name)`, on any widget, returns non-null; no name occurs twice. -/
theorem getListOfAvailablePlugins_is_factory_keys (heapTop : Ptr) (cerr : List String)
    (widget : QVizkitWidget) (pluginName : String) :
    (QVizkitWidget.getListOfAvailablePlugins (QVizkitWidget.construct heapTop cerr)).2
      = (QVizkitWidget.construct heapTop cerr).pluginNames ∧
    (pluginName ∈
        (QVizkitWidget.getListOfAvailablePlugins
          (QVizkitWidget.construct heapTop cerr)).1.pluginNamesItems ↔
      (QVizkitWidget.createPlugin widget pluginName).ret ≠ none) ∧
    ((QVizkitWidget.getListOfAvailablePlugins
        (QVizkitWidget.construct heapTop cerr)).1.pluginNamesItems).Nodup := by
  have hl : (QVizkitWidget.getListOfAvailablePlugins
        (QVizkitWidget.construct heapTop cerr)).1.pluginNamesItems
      = ["WaypointVisualization", "TrajectoryVisualization",
          "MotionCommandVisualization"] := rfl
  refine ⟨rfl, ?_, ?_⟩
  · rw [hl, Ne, createPlugin_ret_eq_none_iff, pluginKindOfName_eq_none_iff, not_not]
    simp only [List.mem_cons, List.mem_singleton, List.not_mem_nil, or_false]
    tauto
  · rw [hl]
    decide

section ListLemmas

theorem getListOfAvailablePlugins_idem (self : QVizkitWidget) :
    (QVizkitWidget.getListOfAvailablePlugins
      (QVizkitWidget.getListOfAvailablePlugins self).1).1
      = (QVizkitWidget.getListOfAvailablePlugins self).1 := by
  by_cases h : self.pluginNamesItems.length = 0
  · simp [QVizkitWidget.getListOfAvailablePlugins, h]
  · simp [QVizkitWidget.getListOfAvailablePlugins, h]

theorem getListOfAvailablePlugins_ret (self : QVizkitWidget) :
    (QVizkitWidget.getListOfAvailablePlugins self).2 = self.pluginNames := by
  by_cases h : self.pluginNamesItems.length = 0
  · simp [QVizkitWidget.getListOfAvailablePlugins, h]
  · simp [QVizkitWidget.getListOfAvailablePlugins, h]

theorem getListOfAvailablePlugins_pluginNames (self : QVizkitWidget) :
    (QVizkitWidget.getListOfAvailablePlugins self).1.pluginNames = self.pluginNames := by
  by_cases h : self.pluginNamesItems.length = 0
  · simp [QVizkitWidget.getListOfAvailablePlugins, h]
  · simp [QVizkitWidget.getListOfAvailablePlugins, h]

theorem afterListCalls_succ (self : QVizkitWidget) (k : Nat) :
    QVizkitWidget.afterListCalls self (k + 1)
      = (QVizkitWidget.getListOfAvailablePlugins self).1 := by
  induction k with
  | zero => rfl
  | succ k ih =>
    show (QVizkitWidget.getListOfAvailablePlugins
      (QVizkitWidget.afterListCalls self (k + 1))).1 = _
    rw [ih, getListOfAvailablePlugins_idem]

theorem afterListCalls_pluginNames (self : QVizkitWidget) (k : Nat) :
    (QVizkitWidget.afterListCalls self k).pluginNames = self.pluginNames := by
  cases k with
  | zero => rfl
  | succ k => rw [afterListCalls_succ, getListOfAvailablePlugins_pluginNames]

end ListLemmas

/-- C8: for every `n >= 1`, the `n`-th of `n` consecutive calls of
`getListOfAvailablePlugins()` on a freshly constructed widget returns the same
pointer as the first call, and the list behind it then has the same contents as
after the first call, the three names once each; the widget as a whole is as
the first call left it. -/
theorem getListOfAvailablePlugins_cached (heapTop : Ptr) (cerr : List String) (n : Nat)
    (h : 1 ≤ n) :
    (QVizkitWidget.getListOfAvailablePlugins
        (QVizkitWidget.afterListCalls (QVizkitWidget.construct heapTop cerr) (n - 1))).2
      = (QVizkitWidget.getListOfAvailablePlugins (QVizkitWidget.construct heapTop cerr)).2 ∧
    (QVizkitWidget.afterListCalls (QVizkitWidget.construct heapTop cerr) n).pluginNamesItems
      = (QVizkitWidget.afterListCalls (QVizkitWidget.construct heapTop cerr) 1).pluginNamesItems ∧
    (QVizkitWidget.afterListCalls (QVizkitWidget.construct heapTop cerr) n).pluginNamesItems
      = ["WaypointVisualization", "TrajectoryVisualization", "MotionCommandVisualization"] ∧
    QVizkitWidget.afterListCalls (QVizkitWidget.construct heapTop cerr) n
      = QVizkitWidget.afterListCalls (QVizkitWidget.construct heapTop cerr) 1 := by
  obtain ⟨k, rfl⟩ : ∃ k, n = k + 1 := ⟨n - 1, by omega⟩
  refine ⟨?_, ?_, ?_, ?_⟩
  · rw [getListOfAvailablePlugins_ret, getListOfAvailablePlugins_ret,
      afterListCalls_pluginNames]
  · rw [afterListCalls_succ, afterListCalls_succ]
  · rw [afterListCalls_succ]
    rfl
  · rw [afterListCalls_succ, afterListCalls_succ]

/-- Witness of `getListOfAvailablePlugins_cached`: four calls on the fresh
widget. -/
theorem getListOfAvailablePlugins_cached_witness :
    (QVizkitWidget.getListOfAvailablePlugins
        (QVizkitWidget.afterListCalls (QVizkitWidget.construct 100 []) (4 - 1))).2 = 104 ∧
    (QVizkitWidget.afterListCalls (QVizkitWidget.construct 100 []) 4).pluginNamesItems
      = ["WaypointVisualization", "TrajectoryVisualization", "MotionCommandVisualization"] :=
  have h := getListOfAvailablePlugins_cached 100 [] 4 (by decide)
  ⟨h.1.trans rfl, h.2.2.1⟩

section AdapterLemmas

theorem getAdapterLoop_eq_none_iff (getRubyMethod : RubyMethodOf) (s : String)
    (l : List Ptr) :
    VizPluginRubyAdapterCollection.getAdapterLoop getRubyMethod l s = none ↔
      ∀ a ∈ l, getRubyMethod a ≠ s := by
  induction l with
  | nil => simp [VizPluginRubyAdapterCollection.getAdapterLoop]
  | cons x xs ih =>
    by_cases hx : getRubyMethod x = s
    · simp [VizPluginRubyAdapterCollection.getAdapterLoop, hx]
    · simp [VizPluginRubyAdapterCollection.getAdapterLoop, hx, ih]

theorem getAdapterLoop_eq_some (getRubyMethod : RubyMethodOf) (s : String) (a : Ptr)
    (l : List Ptr) :
    VizPluginRubyAdapterCollection.getAdapterLoop getRubyMethod l s = some a ↔
      ∃ pre post, l = pre ++ a :: post ∧ getRubyMethod a = s ∧
        ∀ b ∈ pre, getRubyMethod b ≠ s := by
  induction l with
  | nil => simp [VizPluginRubyAdapterCollection.getAdapterLoop]
  | cons x xs ih =>
    by_cases hx : getRubyMethod x = s
    · simp only [VizPluginRubyAdapterCollection.getAdapterLoop, hx, if_true,
        Option.some.injEq]
      constructor
      · intro e
        subst e
        exact ⟨[], xs, rfl, hx, by simp⟩
      · rintro ⟨pre, post, hl, _, hpre⟩
        cases pre with
        | nil =>
          simp only [List.nil_append, List.cons.injEq] at hl
          exact hl.1
        | cons p ps =>
          simp only [List.cons_append, List.cons.injEq] at hl
          exact absurd (hl.1 ▸ hx) (hpre p (by simp))
    · simp only [VizPluginRubyAdapterCollection.getAdapterLoop, hx, if_false, ih]
      constructor
      · rintro ⟨pre, post, hl, ha, hpre⟩
        refine ⟨x :: pre, post, by simp [hl], ha, ?_⟩
        intro b hb
        rcases List.mem_cons.1 hb with hb | hb
        · rw [hb]; exact hx
        · exact hpre b hb
      · rintro ⟨pre, post, hl, ha, hpre⟩
        cases pre with
        | nil =>
          simp only [List.nil_append, List.cons.injEq] at hl
          exact absurd (hl.1 ▸ ha) hx
        | cons p ps =>
          simp only [List.cons_append, List.cons.injEq] at hl
          exact ⟨ps, post, hl.2, ha, fun b hb => hpre b (by simp [hb])⟩

theorem removeAdapter_eq_erase (self : VizPluginRubyAdapterCollection) (adapter : Ptr) :
    (VizPluginRubyAdapterCollection.removeAdapter self adapter).adapterList
      = self.adapterList.erase adapter := by
  cases self with
  | mk l =>
    simp only [VizPluginRubyAdapterCollection.removeAdapter]
    induction l with
    | nil => rfl
    | cons c cs ih =>
      by_cases h : c = adapter
      · subst h
        simp [VizPluginRubyAdapterCollection.stdFind,
          VizPluginRubyAdapterCollection.vectorErase]
      · have hne : (c == adapter) = false := by simpa using h
        simp only [VizPluginRubyAdapterCollection.stdFind, h, if_false, List.length_cons,
          ne_eq, Nat.add_right_cancel_iff, VizPluginRubyAdapterCollection.vectorErase,
          List.erase_cons, hne] at ih ⊢
        by_cases hlt : VizPluginRubyAdapterCollection.stdFind cs adapter = cs.length
        · simp only [hlt, not_true_eq_false, if_false] at ih ⊢
          rw [← ih]; simp
        · simp only [hlt, not_false_eq_true, if_true] at ih ⊢
          rw [ih]; simp

theorem filter_ne_erase (l : List Ptr) (a : Ptr) :
    (l.erase a).filter (fun b => b ≠ a) = l.filter (fun b => b ≠ a) := by
  induction l with
  | nil => rfl
  | cons x xs ih =>
    by_cases h : x = a
    · subst h
      simp
    · have hne : (x == a) = false := by simpa using h
      simp only [ne_eq, decide_not] at ih
      simp [List.erase_cons, hne, h, ih]

end AdapterLemmas

/-- C9: for every adapter collection and every method name `s`, `getAdapter(s)`
returns NULL if and only if no adapter of the collection has the method name
`s`; and it returns the adapter `a` if and only if `a` is in the collection with
method name `s` and no adapter before that place in insertion order has the
method name `s`: the first match. -/
theorem getAdapter_first_match (getRubyMethod : RubyMethodOf)
    (self : VizPluginRubyAdapterCollection) (s : String) :
    (VizPluginRubyAdapterCollection.getAdapter getRubyMethod self s = none ↔
      ∀ a ∈ self.adapterList, getRubyMethod a ≠ s) ∧
    (∀ a : Ptr, VizPluginRubyAdapterCollection.getAdapter getRubyMethod self s = some a ↔
      ∃ pre post, self.adapterList = pre ++ a :: post ∧ getRubyMethod a = s ∧
        ∀ b ∈ pre, getRubyMethod b ≠ s) ∧
    (∀ a : Ptr, VizPluginRubyAdapterCollection.getAdapter getRubyMethod self s = some a →
      a ∈ self.adapterList ∧ getRubyMethod a = s) := by
  refine ⟨getAdapterLoop_eq_none_iff getRubyMethod s self.adapterList,
    fun a => getAdapterLoop_eq_some getRubyMethod s a self.adapterList, ?_⟩
  intro a ha
  obtain ⟨pre, post, hl, hm, _⟩ :=
    (getAdapterLoop_eq_some getRubyMethod s a self.adapterList).1 ha
  exact ⟨by rw [hl]; simp, hm⟩

/-- Evaluation of `getAdapter` for C9: in the collection with the adapters
`2, 3, 1` in this order, of which `3` and `1` answer `updateWaypoint`,
`getAdapter("updateWaypoint")` returns `3`, and `getAdapter("updateGrid")`
returns NULL. -/
theorem getAdapter_first_match_witness :
    VizPluginRubyAdapterCollection.getAdapter Example.rubyMethods Example.threeAdapters
      "updateWaypoint" = some 3 ∧
    Example.rubyMethods 3 = "updateWaypoint" ∧
    VizPluginRubyAdapterCollection.getAdapter Example.rubyMethods Example.threeAdapters
      "updateGrid" = none :=
  have h := getAdapter_first_match Example.rubyMethods Example.threeAdapters "updateWaypoint"
  have e : VizPluginRubyAdapterCollection.getAdapter Example.rubyMethods
      Example.threeAdapters "updateWaypoint" = some 3 := by decide
  ⟨e, (h.2.2 3 e).2, by decide⟩

/-- C10, as stated, fails: after `addAdapter(1); addAdapter(2); addAdapter(1)`
the call `removeAdapter(1)` erases only the first entry `1`; the collection is
then `2, 1` and still contains the adapter `1`. -/
theorem removeAdapter_leaves_second_entry :
    Example.addedTwice.adapterList = [1, 2, 1] ∧
    (VizPluginRubyAdapterCollection.removeAdapter Example.addedTwice 1).adapterList = [2, 1] ∧
    1 ∈ (VizPluginRubyAdapterCollection.removeAdapter Example.addedTwice 1).adapterList := by
  decide

/-- C10, amended: for every adapter collection and every adapter `a`,
`removeAdapter(a)` erases the first entry `a`: every other adapter is still
contained, with the entries other than `a` in the same order as before, the
collection is a subsequence of the old one, and `a` occurs one time fewer; so
`a` is no longer contained when it was contained at most once; when `a` was not
contained, the collection is unchanged. It is the first entry that goes:
whenever the collection is `pre`, then `a`, then `post`, with no `a` in `pre`,
the collection afterwards is `pre` followed by `post`; and when `a` is
contained there is such a splitting. -/
theorem removeAdapter_erases_first (self : VizPluginRubyAdapterCollection) (a : Ptr) :
    ((VizPluginRubyAdapterCollection.removeAdapter self a).adapterList.filter
        (fun b => b ≠ a) = self.adapterList.filter (fun b => b ≠ a)) ∧
    (∀ b : Ptr, b ≠ a →
      (b ∈ (VizPluginRubyAdapterCollection.removeAdapter self a).adapterList ↔
        b ∈ self.adapterList)) ∧
    ((VizPluginRubyAdapterCollection.removeAdapter self a).adapterList).Sublist
      self.adapterList ∧
    (VizPluginRubyAdapterCollection.removeAdapter self a).adapterList.count a
      = self.adapterList.count a - 1 ∧
    (self.adapterList.count a ≤ 1 →
      a ∉ (VizPluginRubyAdapterCollection.removeAdapter self a).adapterList) ∧
    (a ∉ self.adapterList → VizPluginRubyAdapterCollection.removeAdapter self a = self) ∧
    (∀ pre post : List Ptr, self.adapterList = pre ++ a :: post → a ∉ pre →
      (VizPluginRubyAdapterCollection.removeAdapter self a).adapterList = pre ++ post) ∧
    (a ∈ self.adapterList →
      ∃ pre post : List Ptr, self.adapterList = pre ++ a :: post ∧ a ∉ pre ∧
        (VizPluginRubyAdapterCollection.removeAdapter self a).adapterList = pre ++ post) := by
  have e := removeAdapter_eq_erase self a
  have hc : (VizPluginRubyAdapterCollection.removeAdapter self a).adapterList.count a
      = self.adapterList.count a - 1 := by
    rw [e, List.count_erase_self]
  have hsplit : ∀ pre post : List Ptr, self.adapterList = pre ++ a :: post → a ∉ pre →
      (VizPluginRubyAdapterCollection.removeAdapter self a).adapterList = pre ++ post := by
    intro pre post hl hpre
    rw [e, hl, List.erase_append_right _ hpre, List.erase_cons_head]
  refine ⟨?_, ?_, ?_, hc, ?_, ?_, hsplit, ?_⟩
  rotate_right
  · intro hmem
    obtain ⟨pre, post, hpre, hl, _⟩ := List.exists_erase_eq hmem
    exact ⟨pre, post, hl, hpre, hsplit pre post hl hpre⟩
  · rw [e, filter_ne_erase]
  · intro b hb
    rw [e]
    exact List.mem_erase_of_ne hb
  · rw [e]
    exact List.erase_sublist a self.adapterList
  · intro hle
    apply List.count_eq_zero.1
    rw [hc]
    omega
  · intro hn
    cases self with
    | mk l =>
      have e2 := removeAdapter_eq_erase (VizPluginRubyAdapterCollection.mk l) a
      rw [List.erase_of_not_mem hn] at e2
      cases hr : VizPluginRubyAdapterCollection.removeAdapter
          (VizPluginRubyAdapterCollection.mk l) a with
      | mk l2 =>
        rw [hr] at e2
        simp only at e2
        rw [e2]

/-- Evaluation of `removeAdapter` for C10: in the collection `2, 3, 1`, where
the adapter `3` is contained once, `removeAdapter(3)` leaves `2, 1`, and `3` is
no longer contained; in the collection `5, 6, 5, 8`, `removeAdapter(5)` takes
the first `5` and leaves `6, 5, 8`. -/
theorem removeAdapter_erases_first_witness :
    (VizPluginRubyAdapterCollection.removeAdapter Example.threeAdapters 3).adapterList
      = [2, 1] ∧
    3 ∉ (VizPluginRubyAdapterCollection.removeAdapter Example.threeAdapters 3).adapterList ∧
    (VizPluginRubyAdapterCollection.removeAdapter
        (VizPluginRubyAdapterCollection.mk [5, 6, 5, 8]) 5).adapterList = [6, 5, 8] :=
  ⟨by decide, (removeAdapter_erases_first Example.threeAdapters 3).2.2.2.2.1 (by decide),
    (removeAdapter_erases_first (VizPluginRubyAdapterCollection.mk [5, 6, 5, 8]) 5).2.2.2.2.2.2.1
      [] [6, 5, 8] rfl (by decide)⟩

section CreatePluginLemmas

theorem createPlugin_of_kind (self : QVizkitWidget) (pluginName : String) (kind : PluginKind)
    (h : QVizkitWidget.pluginKindOfName pluginName = some kind) :
    QVizkitWidget.createPlugin self pluginName
      = { widget := { self with
            rootChildren := self.rootChildren ++ [self.heapTop + 1]
            heapTop := self.heapTop + 3 },
          ret := some (self.heapTop + 2),
          plugin := some { addr := self.heapTop, kind := kind, vizNode := self.heapTop + 1,
                           adapterCollection := self.heapTop + 2 } } := by
  simp only [QVizkitWidget.createPlugin, h, newPlugin, QVizkitWidget.addDataHandler,
    osg.addChild]

theorem createPlugin_of_unknown (self : QVizkitWidget) (pluginName : String)
    (h : QVizkitWidget.pluginKindOfName pluginName = none) :
    QVizkitWidget.createPlugin self pluginName
      = { widget := { self with
            cerr := self.cerr ++ [QVizkitWidget.unknownNameMessage pluginName] },
          ret := none, plugin := none } := by
  simp only [QVizkitWidget.createPlugin, h]

end CreatePluginLemmas

/-- C11: `createPlugin` changes the scene graph. For every widget and every
built-in name it makes a plugin object and the child list of the root becomes
the old child list followed by one new entry, the node `getVizNode()` returns on
that plugin (the old children keep their places, the list is one longer); for
every other name no plugin is made and the child list of the root is as it
was. -/
theorem createPlugin_appends_one_child (self : QVizkitWidget) (pluginName : String) :
    (pluginName ∈ ["WaypointVisualization", "MotionCommandVisualization",
        "TrajectoryVisualization"] →
      ∃ plugin : PluginObject,
        (QVizkitWidget.createPlugin self pluginName).plugin = some plugin ∧
        QVizkitWidget.pluginKindOfName pluginName = some plugin.kind ∧
        (QVizkitWidget.createPlugin self pluginName).widget.rootChildren
          = self.rootChildren ++ [plugin.vizNode] ∧
        (QVizkitWidget.createPlugin self pluginName).widget.rootChildren.length
          = self.rootChildren.length + 1 ∧
        (QVizkitWidget.createPlugin self pluginName).widget.rootChildren
          ≠ self.rootChildren) ∧
    (pluginName ∉ ["WaypointVisualization", "MotionCommandVisualization",
        "TrajectoryVisualization"] →
      (QVizkitWidget.createPlugin self pluginName).plugin = none ∧
      (QVizkitWidget.createPlugin self pluginName).widget.rootChildren
        = self.rootChildren) := by
  constructor
  · intro hmem
    have hk : QVizkitWidget.pluginKindOfName pluginName ≠ none := fun hn =>
      (pluginKindOfName_eq_none_iff pluginName).1 hn hmem
    obtain ⟨kind, hkind⟩ := Option.ne_none_iff_exists'.1 hk
    rw [createPlugin_of_kind self pluginName kind hkind]
    refine ⟨_, rfl, hkind, rfl, by simp, ?_⟩
    intro he
    have hl := congrArg List.length he
    simp at hl
  · intro hn
    rw [createPlugin_of_unknown self pluginName
      ((pluginKindOfName_eq_none_iff pluginName).2 hn)]
    exact ⟨rfl, rfl⟩

/-- Evaluation of `createPlugin` for C11: on the fresh widget, whose root has
the children `101, 102, 103`, `createPlugin("TrajectoryVisualization")` leaves
the children `101, 102, 103, 106`, and `createPlugin("NoSuchThing")` leaves
`101, 102, 103`. -/
theorem createPlugin_appends_one_child_witness :
    Example.freshWidget.rootChildren = [101, 102, 103] ∧
    (QVizkitWidget.createPlugin Example.freshWidget
        "TrajectoryVisualization").widget.rootChildren = [101, 102, 103, 106] ∧
    (QVizkitWidget.createPlugin Example.freshWidget "NoSuchThing").widget.rootChildren
      = [101, 102, 103] :=
  have h2 := (createPlugin_appends_one_child Example.freshWidget "NoSuchThing").2 (by decide)
  ⟨rfl, by decide, h2.2⟩

end vizkit
